import Mathlib

/-!
Verification of the component-mapping core of the Altium-to-KiCAD migration
tool (`migration_tool/core/mapping_engine.py` and the category part of
`migration_tool/core/kicad_generator.py`).

The Python code is shallowly embedded: records are association lists from
attribute names to optional strings (`none` models Python's `None`), Python
dictionaries are association lists with unique keys (insertion order is the
iteration order, as for `dict` in CPython), and operations that can raise a
Python exception on this domain return `Except PyErr`.  Engine state (the
memoizing symbol/footprint rule tables) is threaded explicitly.  Confidence
arithmetic is carried out in `Rat`; the source clamps the score, so no
floating-point-specific behaviour is relevant to the proved bounds.
-/

deriving instance DecidableEq for Except

namespace MigrationTool

/-- A Python value stored in a vendor record: `none` models Python `None`,
`some s` a string value. -/
abbrev PyVal := Option String

/-- A vendor component record: a Python dict from attribute name to an
optional string value (association list with unique keys). -/
abbrev Record := List (String × PyVal)

/-- Exceptions that the embedded code can raise on the record domain. -/
inductive PyErr where
  | attributeError
  | typeError
  | keyError
  | symbolMappingError
  | footprintMappingError
  deriving Repr, DecidableEq

/-- `d.get(k, default)` on a record: the stored value (possibly `None`) when
the key is present, otherwise the (string) default. -/
def pyGet (d : Record) (k : String) (default : String) : PyVal :=
  match d.lookup k with
  | some v => v
  | none => some default

/-- Python `str(v)`: strings unchanged, `None` rendered as `"None"` (this is
what an f-string interpolation of `None` produces). -/
def pyStr (v : PyVal) : String :=
  match v with
  | some s => s
  | none => "None"

/-- `v.lower()`: raises `AttributeError` when `v` is `None`. -/
def pyLower (v : PyVal) : Except PyErr String :=
  match v with
  | some s => .ok s.toLower
  | none => .error .attributeError

/-- Python truthiness of an optional string (`None` and `""` are falsy). -/
def truthy (v : PyVal) : Bool :=
  match v with
  | some s => !(s == "")
  | none => false

/-- Contiguous-sublist (infix) test on lists of characters. -/
def infixOfL (needle : List Char) : List Char → Bool
  | [] => needle.isEmpty
  | c :: rest => needle.isPrefixOf (c :: rest) || infixOfL needle rest

/-- Python `needle in hay` substring test. -/
def substr (needle hay : String) : Bool :=
  infixOfL needle.toList hay.toList

/-- Python dict assignment `m[k] = v`: update in place when the key exists
(preserving its position), else append (end of the iteration order). -/
def dictInsert (m : List (String × String)) (k v : String) : List (String × String) :=
  match m with
  | [] => [(k, v)]
  | (k', v') :: rest => if k' == k then (k', v) :: rest else (k', v') :: dictInsert rest k v

/-! ### `fnmatch.fnmatch` (POSIX: `os.path.normcase` is the identity)

The pattern is compiled to tokens exactly as `fnmatch.translate` reads it:
`*` and `?` wildcards, bracket classes with optional leading `!` negation and
`]` allowed as the first member, `lo-hi` ranges, and an unclosed `[` treated
as a literal character. -/

/-- One member of a bracket class: a single character or a range. -/
inductive ClsItem where
  | single (c : Char)
  | range (lo hi : Char)
  deriving Repr, DecidableEq

/-- A compiled glob-pattern token. -/
inductive GlobTok where
  | star
  | qmark
  | lit (c : Char)
  | cls (neg : Bool) (items : List ClsItem)
  deriving Repr, DecidableEq

/-- Parse the inside of a bracket class into members (`a-b` ranges; a `-` at
either end is a literal, as in a regular-expression class). -/
def parseClsItems : List Char → List ClsItem
  | a :: '-' :: b :: rest => .range a b :: parseClsItems rest
  | a :: rest => .single a :: parseClsItems rest
  | [] => []

/-- Scan for the closing `]` of a bracket class; returns the content before
it and the remainder after it. -/
def findClose : List Char → Option (List Char × List Char)
  | [] => none
  | ']' :: rest => some ([], rest)
  | c :: rest => (findClose rest).map (fun p => (c :: p.1, p.2))

/-- Split a bracket-class body (the characters after `[` and an optional
`!`): a first `]` is a literal member; returns the parsed members and the
remainder after the closing `]`, or `none` when the class is unclosed. -/
def clsSplit (inner : List Char) : Option (List ClsItem × List Char) :=
  match inner with
  | ']' :: rest2 => (findClose rest2).map (fun p => (parseClsItems (']' :: p.1), p.2))
  | _ => (findClose inner).map (fun p => (parseClsItems p.1, p.2))

/-- Fueled glob-pattern tokenizer.  Every step consumes at least one
pattern character (a split class consumes the whole bracket expression), so
fuel `length + 1` never runs out. -/
def parseGlobF : Nat → List Char → List GlobTok
  | 0, _ => []
  | _ + 1, [] => []
  | fuel + 1, '*' :: rest => .star :: parseGlobF fuel rest
  | fuel + 1, '?' :: rest => .qmark :: parseGlobF fuel rest
  | fuel + 1, '[' :: '!' :: rest =>
    (match clsSplit rest with
     | some p => .cls true p.1 :: parseGlobF fuel p.2
     | none => .lit '[' :: parseGlobF fuel ('!' :: rest))
  | fuel + 1, '[' :: rest =>
    (match clsSplit rest with
     | some p => .cls false p.1 :: parseGlobF fuel p.2
     | none => .lit '[' :: parseGlobF fuel rest)
  | fuel + 1, c :: rest => .lit c :: parseGlobF fuel rest

/-- Compile a glob pattern to tokens, following `fnmatch.translate`:
after `[` an optional `!` negates, a first `]` is a literal member, and a
class with no closing `]` leaves the `[` as a literal character. -/
def parseGlob (cs : List Char) : List GlobTok :=
  parseGlobF (cs.length + 1) cs

/-- Does a character belong to a bracket class? -/
def matchCls (c : Char) : List ClsItem → Bool
  | [] => false
  | .single a :: rest => a == c || matchCls c rest
  | .range lo hi :: rest => (lo ≤ c && c ≤ hi) || matchCls c rest

/-- Fueled matcher for compiled glob tokens.  Every recursive call shrinks
`ps.length + s.length` by at least one, so fuel `ps.length + s.length + 1`
never runs out. -/
def globMatchF : Nat → List GlobTok → List Char → Bool
  | 0, _, _ => false
  | _ + 1, [], [] => true
  | _ + 1, [], _ :: _ => false
  | fuel + 1, .star :: ps, [] => globMatchF fuel ps []
  | fuel + 1, .star :: ps, c :: s =>
    globMatchF fuel ps (c :: s) || globMatchF fuel (.star :: ps) s
  | fuel + 1, .qmark :: ps, _ :: s => globMatchF fuel ps s
  | _ + 1, .qmark :: _, [] => false
  | fuel + 1, .lit a :: ps, c :: s => a == c && globMatchF fuel ps s
  | _ + 1, .lit _ :: _, [] => false
  | fuel + 1, .cls neg items :: ps, c :: s =>
    (matchCls c items != neg) && globMatchF fuel ps s
  | _ + 1, .cls _ _ :: _, [] => false

/-- Match compiled glob tokens against a full string (glob `*` and `?` do not
special-case path separators in `fnmatch`). -/
def globMatchT (ps : List GlobTok) (s : List Char) : Bool :=
  globMatchF (ps.length + s.length + 1) ps s

/-- `fnmatch.fnmatch(name, pat)` on a POSIX platform (where
`os.path.normcase` is the identity): full-string glob match. -/
def fnmatch (name pat : String) : Bool :=
  globMatchT (parseGlob pat.toList) name.toList

/-- `fnmatch.fnmatch` where the name may be Python `None`; `fnmatch` calls
`os.path.normcase(name)`, which raises `TypeError` on `None`. -/
def fnmatchPy (name : PyVal) (pat : String) : Except PyErr Bool :=
  match name with
  | some s => .ok (fnmatch s pat)
  | none => .error .typeError

/-! ### `_extract_package_size` regex scanners

Each of the hard-coded `package_patterns` of
`ComponentMappingEngine._extract_package_size` is embedded as a scanner with
Python `re.search` semantics (leftmost match, greedy quantifiers with
backtracking, `re.IGNORECASE`), returning the first capture group. -/

/-- Case-insensitive literal prefix strip (ASCII case folding, as
`re.IGNORECASE` does for these letters-only patterns). -/
def stripPrefixCI : List Char → List Char → Option (List Char)
  | [], s => some s
  | _ :: _, [] => none
  | p :: ps, c :: cs => if p.toLower == c.toLower then stripPrefixCI ps cs else none

/-- The maximal leading run of ASCII digits and the remainder. -/
def takeDigits : List Char → List Char × List Char
  | [] => ([], [])
  | c :: cs =>
    if c.isDigit then
      let p := takeDigits cs
      (c :: p.1, p.2)
    else ([], c :: cs)

/-- `re.search(r'(\d{3,4})$', s)`: a 3-or-4-digit suffix; the leftmost match
position makes a 4-digit suffix win over a 3-digit one. -/
def patEndDigits (s : List Char) : Option (List Char) :=
  let n := s.length
  if 4 ≤ n && (s.drop (n - 4)).all Char.isDigit then some (s.drop (n - 4))
  else if 3 ≤ n && (s.drop (n - 3)).all Char.isDigit then some (s.drop (n - 3))
  else none

/-- `re.search(r'(\d{3,4})[^0-9]', s)`: at each position greedily try four
digits followed by a non-digit, then three. -/
def patDigitsNonDigit : List Char → Option (List Char)
  | [] => none
  | c :: rest =>
    (match c :: rest with
     | a :: b :: c2 :: d :: e :: _ =>
       if (a.isDigit && b.isDigit && c2.isDigit && d.isDigit) && !e.isDigit then
         some [a, b, c2, d]
       else none
     | _ => none) <|>
    (match c :: rest with
     | a :: b :: c2 :: d :: _ =>
       if (a.isDigit && b.isDigit && c2.isDigit) && !d.isDigit then some [a, b, c2]
       else none
     | _ => none) <|>
    patDigitsNonDigit rest

/-- `re.search(r'_(\d{3,4})_', s)`. -/
def patUnderscoreDigits : List Char → Option (List Char)
  | [] => none
  | c :: rest =>
    (if c == '_' then
      (match rest with
       | a :: b :: c2 :: d :: '_' :: _ =>
         if a.isDigit && b.isDigit && c2.isDigit && d.isDigit then some [a, b, c2, d]
         else none
       | _ => none) <|>
      (match rest with
       | a :: b :: c2 :: '_' :: _ =>
         if a.isDigit && b.isDigit && c2.isDigit then some [a, b, c2]
         else none
       | _ => none)
     else none) <|>
    patUnderscoreDigits rest

/-- `re.search(r'PRE-?(\d+)', s, re.IGNORECASE)` for a literal prefix `pre`:
the prefix, an optional dash, then a nonempty digit run (the group). -/
def patPrefixedNum (pre : List Char) : List Char → Option (List Char)
  | [] => none
  | c :: rest =>
    (match stripPrefixCI pre (c :: rest) with
     | some after =>
       let after2 := match after with
         | '-' :: t => t
         | t => t
       let ds := (takeDigits after2).1
       if ds.isEmpty then none else some ds
     | none => none) <|>
    patPrefixedNum pre rest

/-- `re.search(r'SOT-?(\d+-\d+)', s, re.IGNORECASE)` (listed after the plain
`SOT` pattern in the source, hence never reached first). -/
def patSOTComplex : List Char → Option (List Char)
  | [] => none
  | c :: rest =>
    (match stripPrefixCI ['S', 'O', 'T'] (c :: rest) with
     | some after =>
       let after2 := match after with
         | '-' :: t => t
         | t => t
       let p1 := takeDigits after2
       if p1.1.isEmpty then none
       else
         match p1.2 with
         | '-' :: t2 =>
           let p2 := takeDigits t2
           if p2.1.isEmpty then none else some (p1.1 ++ '-' :: p2.1)
         | _ => none
     | none => none) <|>
    patSOTComplex rest

/-- `_extract_package_size`'s ordered `package_patterns` list applied to one
string: first pattern with a match wins. -/
def pkgSearch (s : String) : Option String :=
  let cs := s.toList
  (patEndDigits cs <|> patDigitsNonDigit cs <|> patUnderscoreDigits cs <|>
    patPrefixedNum ['S', 'O', 'T'] cs <|> patSOTComplex cs <|>
    patPrefixedNum ['S', 'O', 'I', 'C'] cs <|> patPrefixedNum ['T', 'S', 'S', 'O', 'P'] cs <|>
    patPrefixedNum ['Q', 'F', 'P'] cs <|> patPrefixedNum ['L', 'Q', 'F', 'P'] cs <|>
    patPrefixedNum ['Q', 'F', 'N'] cs <|> patPrefixedNum ['D', 'I', 'P'] cs).map
    (fun l => String.mk l)

/-! ### Engine data

`_default_field_mappings` and `_load_component_type_mappings` of
`ComponentMappingEngine`, with no configuration manager (the defaults the
source hard-codes).  The `symbol_patterns` regexes all have the form
`.*LITERAL.*`; for such patterns `re.search` succeeds exactly when the
literal is a substring, so the literals are stored and tested with
`substr`. -/

/-- Default Altium-field-name to KiCAD-field-name dict, in source order. -/
def default_field_mappings : List (String × String) :=
  [("Part Number", "MPN"),
   ("Manufacturer", "Manufacturer"),
   ("Manufacturer Part Number", "MPN"),
   ("Description", "Description"),
   ("Value", "Value"),
   ("Footprint", "Footprint"),
   ("Datasheet", "Datasheet"),
   ("Supplier", "Supplier"),
   ("Supplier Part Number", "SPN"),
   ("Package", "Package"),
   ("Voltage", "Voltage"),
   ("Current", "Current"),
   ("Power", "Power"),
   ("Tolerance", "Tolerance"),
   ("Temperature", "Temperature"),
   ("Library Name", "Library"),
   ("Comment", "Comment"),
   ("ComponentLink1Description", "Link1_Desc"),
   ("ComponentLink1URL", "Link1_URL"),
   ("ComponentLink2Description", "Link2_Desc"),
   ("ComponentLink2URL", "Link2_URL")]

/-- One entry of `component_type_mappings`: canonical symbol, the literal
cores of the `.*LIT.*` symbol regexes, and the per-package footprint dict. -/
structure CompType where
  kicad_symbol : String
  symbol_patterns : List String
  common_footprints : List (String × String)
  deriving Repr, DecidableEq

/-- The hard-coded default `component_type_mappings`, in dict order. -/
def component_type_mappings : List (String × CompType) :=
  [("resistors",
    { kicad_symbol := "Device:R",
      symbol_patterns := ["resistor", "res"],
      common_footprints :=
        [("0201", "Resistor_SMD:R_0201_0603Metric"),
         ("0402", "Resistor_SMD:R_0402_1005Metric"),
         ("0603", "Resistor_SMD:R_0603_1608Metric"),
         ("0805", "Resistor_SMD:R_0805_2012Metric"),
         ("1206", "Resistor_SMD:R_1206_3216Metric"),
         ("1210", "Resistor_SMD:R_1210_3225Metric"),
         ("2010", "Resistor_SMD:R_2010_5025Metric"),
         ("2512", "Resistor_SMD:R_2512_6332Metric")] }),
   ("capacitors",
    { kicad_symbol := "Device:C",
      symbol_patterns := ["capacitor", "cap"],
      common_footprints :=
        [("0201", "Capacitor_SMD:C_0201_0603Metric"),
         ("0402", "Capacitor_SMD:C_0402_1005Metric"),
         ("0603", "Capacitor_SMD:C_0603_1608Metric"),
         ("0805", "Capacitor_SMD:C_0805_2012Metric"),
         ("1206", "Capacitor_SMD:C_1206_3216Metric"),
         ("1210", "Capacitor_SMD:C_1210_3225Metric"),
         ("1812", "Capacitor_SMD:C_1812_4532Metric"),
         ("2220", "Capacitor_SMD:C_2220_5650Metric")] }),
   ("inductors",
    { kicad_symbol := "Device:L",
      symbol_patterns := ["inductor", "ind"],
      common_footprints :=
        [("0603", "Inductor_SMD:L_0603_1608Metric"),
         ("0805", "Inductor_SMD:L_0805_2012Metric"),
         ("1206", "Inductor_SMD:L_1206_3216Metric"),
         ("1210", "Inductor_SMD:L_1210_3225Metric"),
         ("1812", "Inductor_SMD:L_1812_4532Metric"),
         ("2220", "Inductor_SMD:L_2220_5650Metric")] }),
   ("diodes",
    { kicad_symbol := "Device:D",
      symbol_patterns := ["diode"],
      common_footprints :=
        [("SOD-123", "Diode_SMD:D_SOD-123"),
         ("SOD-323", "Diode_SMD:D_SOD-323"),
         ("SOD-523", "Diode_SMD:D_SOD-523"),
         ("SMA", "Diode_SMD:D_SMA"),
         ("SMB", "Diode_SMD:D_SMB"),
         ("SMC", "Diode_SMD:D_SMC")] }),
   ("transistors",
    { kicad_symbol := "Device:Q_NPN_BCE",
      symbol_patterns := ["transistor", "mosfet", "fet", "bjt"],
      common_footprints :=
        [("SOT-23", "Package_TO_SOT_SMD:SOT-23"),
         ("SOT-23-3", "Package_TO_SOT_SMD:SOT-23"),
         ("SOT-23-5", "Package_TO_SOT_SMD:SOT-23-5"),
         ("SOT-23-6", "Package_TO_SOT_SMD:SOT-23-6"),
         ("SOT-223", "Package_TO_SOT_SMD:SOT-223"),
         ("TO-252", "Package_TO_SOT_SMD:TO-252-3_TabPin2"),
         ("DPAK", "Package_TO_SOT_SMD:TO-252-3_TabPin2")] }),
   ("ics",
    { kicad_symbol := "Device:U",
      symbol_patterns := ["ic", "integrated circuit", "microcontroller", "processor"],
      common_footprints :=
        [("SOIC-8", "Package_SO:SOIC-8_3.9x4.9mm_P1.27mm"),
         ("SOIC-16", "Package_SO:SOIC-16_3.9x9.9mm_P1.27mm"),
         ("TSSOP-8", "Package_SO:TSSOP-8_4.4x3mm_P0.65mm"),
         ("TSSOP-16", "Package_SO:TSSOP-16_4.4x5mm_P0.65mm"),
         ("QFN-20", "Package_DFN_QFN:QFN-20-1EP_4x4mm_P0.5mm_EP2.5x2.5mm"),
         ("QFN-24", "Package_DFN_QFN:QFN-24-1EP_4x4mm_P0.5mm_EP2.6x2.6mm"),
         ("LQFP-32", "Package_QFP:LQFP-32_7x7mm_P0.8mm"),
         ("LQFP-48", "Package_QFP:LQFP-48_7x7mm_P0.5mm"),
         ("LQFP-64", "Package_QFP:LQFP-64_10x10mm_P0.5mm"),
         ("LQFP-100", "Package_QFP:LQFP-100_14x14mm_P0.5mm")] })]

/-- One rule from `category_mappings` (loaded from an external rule file);
the dict defaults of `map_component_category` are applied at construction. -/
structure CategoryRule where
  pattern : String
  category : String
  subcategory : String
  keywords : List String
  deriving Repr, DecidableEq

/-- The mutable per-instance state of `ComponentMappingEngine`: the symbol
and footprint dicts (externally loaded rules plus memoized resolutions) and
the ordered category rules.  `field_mappings` and `component_type_mappings`
stay at their hard-coded defaults. -/
structure Engine where
  symbol_mappings : List (String × String)
  footprint_mappings : List (String × String)
  category_mappings : List CategoryRule
  deriving Repr, DecidableEq

/-- A freshly constructed engine with no custom rule files. -/
def defaultEngine : Engine :=
  { symbol_mappings := [], footprint_mappings := [], category_mappings := [] }

/-! ### Symbol resolution (`map_symbol` and helpers) -/

/-- `_get_fallback_symbol`: keyword scan over description and value text. -/
def get_fallback_symbol (r : Record) : Except PyErr String :=
  match pyLower (pyGet r "Description" "") with
  | .error e => .error e
  | .ok description =>
    match pyLower (pyGet r "Value" "") with
    | .error e => .error e
    | .ok value =>
      let dv := description ++ " " ++ value
      if ["ohm", "k", "m", "resistor"].any (fun t => substr t dv) then .ok "Device:R"
      else if ["f", "farad", "capacitor"].any (fun t => substr t dv) then .ok "Device:C"
      else if ["h", "henry", "inductor"].any (fun t => substr t dv) then .ok "Device:L"
      else if ["diode", "rectifier"].any (fun t => substr t dv) then .ok "Device:D"
      else if ["transistor", "fet", "mosfet"].any (fun t => substr t dv) then
        .ok "Device:Q_NMOS_GSD"
      else .ok "Device:U"

/-- `_find_similar_symbol`: despite its name, no string similarity is
computed; the description is keyword-scanned and the raw symbol is unused
(the source comment says scanning symbol libraries is not implemented). -/
def find_similar_symbol (altium_symbol : String) (r : Record) :
    Except PyErr (Option String) :=
  match pyLower (pyGet r "Description" "") with
  | .error e => .error e
  | .ok description =>
    if ["resistor", "res"].any (fun w => substr w description) then .ok (some "Device:R")
    else if ["capacitor", "cap"].any (fun w => substr w description) then .ok (some "Device:C")
    else if ["inductor", "ind"].any (fun w => substr w description) then .ok (some "Device:L")
    else if ["diode"].any (fun w => substr w description) then .ok (some "Device:D")
    else if ["transistor", "fet", "mosfet"].any (fun w => substr w description) then
      .ok (some "Device:Q_NMOS_GSD")
    else if ["ic", "integrated", "chip"].any (fun w => substr w description) then
      .ok (some "Device:U")
    else .ok none

/-- The pattern loop of `map_symbol`/`map_footprint`: first dict entry whose
key contains `*` and glob-matches the raw name. -/
def findPatternMatch (m : List (String × String)) (s : String) : Option String :=
  match m with
  | [] => none
  | (pat, k) :: rest =>
    if pat.contains '*' && fnmatch s pat then some k else findPatternMatch rest s

/-- The component-type loop of `map_symbol`: first type whose pattern list
hits the description or value text. -/
def findTypeSymbol (description value : String) : Option String :=
  component_type_mappings.findSome? fun tm =>
    if tm.2.symbol_patterns.any (fun p => substr p description || substr p value) then
      some tm.2.kicad_symbol
    else none

/-- The `try`-body of `map_symbol`.  Successful pattern and component-type
resolutions are memoized into `symbol_mappings` (keyed by the raw symbol)
before returning.  An empty or `None` raw symbol goes straight to
`_get_fallback_symbol`. -/
def map_symbol_try (E : Engine) (altium_symbol : PyVal) (r : Record) :
    Except PyErr String × Engine :=
  if !truthy altium_symbol then
    (get_fallback_symbol r, E)
  else
    let s := pyStr altium_symbol
    match E.symbol_mappings.lookup s with
    | some k => (.ok k, E)
    | none =>
      match findPatternMatch E.symbol_mappings s with
      | some k => (.ok k, { E with symbol_mappings := dictInsert E.symbol_mappings s k })
      | none =>
        match pyLower (pyGet r "Description" "") with
        | .error e => (.error e, E)
        | .ok description =>
          match pyLower (pyGet r "Value" "") with
          | .error e => (.error e, E)
          | .ok value =>
            match findTypeSymbol description value with
            | some k =>
              (.ok k, { E with symbol_mappings := dictInsert E.symbol_mappings s k })
            | none =>
              match find_similar_symbol s r with
              | .error e => (.error e, E)
              | .ok (some k) => (.ok k, E)
              | .ok none => (get_fallback_symbol r, E)

/-- `map_symbol`: the `try` body with the function's `except` clause, which
re-raises any internal error as `SymbolMappingError`. -/
def map_symbol (E : Engine) (altium_symbol : PyVal) (r : Record) :
    Except PyErr String × Engine :=
  match map_symbol_try E altium_symbol r with
  | (.ok k, E') => (.ok k, E')
  | (.error _, E') => (.error .symbolMappingError, E')

/-! ### Footprint resolution (`map_footprint` and helpers) -/

/-- `_extract_package_size`: the ordered pattern list applied to the
footprint name, then the `Package` attribute (skipped when falsy), then the
description (where a `None` value reaches `re.search` and raises
`TypeError`). -/
def extract_package_size (footprint : String) (r : Record) :
    Except PyErr (Option String) :=
  match pkgSearch footprint with
  | some g => .ok (some g)
  | none =>
    let pkgv := pyGet r "Package" ""
    match (if truthy pkgv then pkgSearch (pyStr pkgv) else none) with
    | some g => .ok (some g)
    | none =>
      match pyGet r "Description" "" with
      | none => .error .typeError
      | some d => .ok (pkgSearch d)

/-- `_find_similar_footprint`: keyword scan over the lowered footprint name
only (the record argument is unused in the source too). -/
def find_similar_footprint (altium_footprint : String) (r : Record) : Option String :=
  let fl := altium_footprint.toLower
  if substr "0603" fl then
    some (if substr "res" fl then "Resistor_SMD:R_0603_1608Metric"
      else if substr "cap" fl then "Capacitor_SMD:C_0603_1608Metric"
      else "Resistor_SMD:R_0603_1608Metric")
  else if substr "0805" fl then
    some (if substr "res" fl then "Resistor_SMD:R_0805_2012Metric"
      else if substr "cap" fl then "Capacitor_SMD:C_0805_2012Metric"
      else "Resistor_SMD:R_0805_2012Metric")
  else if substr "sot23" fl || substr "sot-23" fl then
    some "Package_TO_SOT_SMD:SOT-23"
  else if substr "soic" fl then
    some (if substr "8" fl then "Package_SO:SOIC-8_3.9x4.9mm_P1.27mm"
      else if substr "16" fl then "Package_SO:SOIC-16_3.9x9.9mm_P1.27mm"
      else "Package_SO:SOIC-8_3.9x4.9mm_P1.27mm")
  else none

/-- `_get_fallback_footprint`: keyword scan over the description. -/
def get_fallback_footprint (r : Record) : Except PyErr String :=
  match pyLower (pyGet r "Description" "") with
  | .error e => .error e
  | .ok description =>
    if ["resistor", "res", "ohm"].any (fun t => substr t description) then
      .ok "Resistor_SMD:R_0603_1608Metric"
    else if ["capacitor", "cap"].any (fun t => substr t description) then
      .ok "Capacitor_SMD:C_0603_1608Metric"
    else if ["inductor", "ind"].any (fun t => substr t description) then
      .ok "Inductor_SMD:L_0603_1608Metric"
    else if ["diode"].any (fun t => substr t description) then
      .ok "Diode_SMD:D_SOD-123"
    else if ["transistor", "fet", "mosfet"].any (fun t => substr t description) then
      .ok "Package_TO_SOT_SMD:SOT-23"
    else .ok "Package_SO:SOIC-8_3.9x4.9mm_P1.27mm"

/-- The component-type loop of `map_footprint`: first type whose patterns
hit the description text and whose footprint dict knows the package. -/
def findTypeFootprint (description package : String) : Option String :=
  component_type_mappings.findSome? fun tm =>
    if tm.2.symbol_patterns.any (fun p => substr p description) then
      tm.2.common_footprints.lookup package
    else none

/-- The tail of `map_footprint` after the package-size step: fuzzy-name
lookup, then the generic fallback. -/
def map_footprint_tail (E : Engine) (f : String) (r : Record) :
    Except PyErr String × Engine :=
  match find_similar_footprint f r with
  | some k => (.ok k, E)
  | none => (get_fallback_footprint r, E)

/-- The `try`-body of `map_footprint`.  Pattern and package-size resolutions
are memoized into `footprint_mappings` before returning. -/
def map_footprint_try (E : Engine) (altium_footprint : PyVal) (r : Record) :
    Except PyErr String × Engine :=
  if !truthy altium_footprint then
    (get_fallback_footprint r, E)
  else
    let f := pyStr altium_footprint
    match E.footprint_mappings.lookup f with
    | some k => (.ok k, E)
    | none =>
      match findPatternMatch E.footprint_mappings f with
      | some k =>
        (.ok k, { E with footprint_mappings := dictInsert E.footprint_mappings f k })
      | none =>
        match extract_package_size f r with
        | .error e => (.error e, E)
        | .ok none => map_footprint_tail E f r
        | .ok (some package) =>
          match pyLower (pyGet r "Description" "") with
          | .error e => (.error e, E)
          | .ok description =>
            match findTypeFootprint description package with
            | some k =>
              (.ok k, { E with footprint_mappings := dictInsert E.footprint_mappings f k })
            | none => map_footprint_tail E f r

/-- `map_footprint`: the `try` body with the `except` clause re-raising as
`FootprintMappingError`. -/
def map_footprint (E : Engine) (altium_footprint : PyVal) (r : Record) :
    Except PyErr String × Engine :=
  match map_footprint_try E altium_footprint r with
  | (.ok k, E') => (.ok k, E')
  | (.error _, E') => (.error .footprintMappingError, E')

/-! ### Field mapping and category classification -/

/-- `map_fields`: renames via `field_mappings` keeping only fields present
with a non-`None`, non-blank value; derives `Value` from `Description`;
synthesizes a `Reference` designator.  On the record domain the body never
raises, so the function's `except` clause is unreachable. -/
def map_fields (r : Record) : List (String × String) :=
  let mapped := default_field_mappings.foldl
    (fun acc fm =>
      match r.lookup fm.1 with
      | some (some v) => if v.trim == "" then acc else dictInsert acc fm.2 v.trim
      | some none => acc
      | none => acc)
    []
  let mapped :=
    match mapped.lookup "Value", mapped.lookup "Description" with
    | none, some d => dictInsert mapped "Value" d
    | _, _ => mapped
  match mapped.lookup "Reference" with
  | some _ => mapped
  | none =>
    let d := (pyStr (pyGet r "Description" "")).toLower
    let ref :=
      if ["resistor", "res"].any (fun t => substr t d) then "R"
      else if ["capacitor", "cap"].any (fun t => substr t d) then "C"
      else if ["inductor", "ind"].any (fun t => substr t d) then "L"
      else if ["diode"].any (fun t => substr t d) then "D"
      else if ["transistor", "fet", "mosfet"].any (fun t => substr t d) then "Q"
      else "U"
    dictInsert mapped "Reference" ref

/-- `map_component_category`: rule list first (glob on the concatenated
match text), then the keyword fallback.  F-string interpolation renders
`None` attribute values as the text `"None"`, so the body never raises; its
`except` clause would return the same `Uncategorized` triple. -/
def map_component_category (E : Engine) (r : Record) :
    String × String × List String :=
  let name := pyStr (pyGet r "Name" "")
  let description := pyStr (pyGet r "Description" "")
  let symbol := pyStr (pyGet r "Symbol" "")
  let footprint := pyStr (pyGet r "Footprint" "")
  let matchText :=
    (name ++ " " ++ description ++ " " ++ symbol ++ " " ++ footprint).toLower
  let ruleHit := E.category_mappings.findSome? fun rule =>
    if !(rule.pattern == "") && fnmatch matchText rule.pattern.toLower then
      some (rule.category, rule.subcategory, rule.keywords)
    else none
  match ruleHit with
  | some res => res
  | none =>
    if ["resistor", "res", "ohm"].any (fun t => substr t matchText) then
      ("Passive Components", "Resistors", ["resistor", "resistance", "ohm"])
    else if ["capacitor", "cap"].any (fun t => substr t matchText) then
      ("Passive Components", "Capacitors", ["capacitor", "capacitance", "farad"])
    else if ["inductor", "ind"].any (fun t => substr t matchText) then
      ("Passive Components", "Inductors", ["inductor", "inductance", "henry"])
    else if ["diode"].any (fun t => substr t matchText) then
      ("Semiconductor", "Diodes", ["diode", "rectifier"])
    else if ["transistor", "fet", "mosfet"].any (fun t => substr t matchText) then
      ("Semiconductor", "Transistors", ["transistor", "fet", "mosfet"])
    else if ["ic", "integrated", "chip"].any (fun t => substr t matchText) then
      ("Integrated Circuits", "General", ["ic", "chip"])
    else ("Uncategorized", "General", ["component"])

/-! ### Confidence (`_calculate_confidence`) -/

/-- The generic symbols checked by the consistency adjustment. -/
def genericSymbols : List String :=
  ["Device:R", "Device:C", "Device:L", "Device:D", "Device:Q_NMOS_GSD", "Device:U"]

/-- The direct-hit condition of `_calculate_confidence`: the raw name is a
key of the dict and stores exactly the produced canonical name (`None` is
never a key). -/
def directHitCond (m : List (String × String)) (raw : PyVal) (k : String) : Bool :=
  match raw with
  | some s =>
    match m.lookup s with
    | some v => v == k
    | none => false
  | none => false

/-- The pattern-bonus loop of `_calculate_confidence`: some dict key
contains `*`, glob-matches the raw name, and stores the produced canonical
name.  `fnmatch` on a `None` raw name raises `TypeError` (reached only when
a `*` key exists, thanks to Python's short-circuit `and`). -/
def patternCond (m : List (String × String)) (raw : PyVal) (k : String) :
    Except PyErr Bool :=
  match m with
  | [] => .ok false
  | (pat, v) :: rest =>
    if pat.contains '*' then
      match fnmatchPy raw pat with
      | .error e => .error e
      | .ok b =>
        if b && v == k then .ok true else patternCond rest raw k
    else patternCond rest raw k

/-- The consistency adjustment: for a generic canonical symbol, `+0.1` when
the description text agrees with the generic type, else `-0.1`. -/
def genericAdjust (kicad_symbol description : String) (c : Rat) : Rat :=
  if kicad_symbol == "Device:R" &&
      (["resistor", "res"].any (fun t => substr t description)) then c + 0.1
  else if kicad_symbol == "Device:C" &&
      (["capacitor", "cap"].any (fun t => substr t description)) then c + 0.1
  else if kicad_symbol == "Device:L" &&
      (["inductor", "ind"].any (fun t => substr t description)) then c + 0.1
  else if kicad_symbol == "Device:D" &&
      (["diode"].any (fun t => substr t description)) then c + 0.1
  else if kicad_symbol == "Device:Q_NMOS_GSD" &&
      (["transistor", "fet", "mosfet"].any (fun t => substr t description)) then c + 0.1
  else c - 0.1

/-- The running sum of `_calculate_confidence` before the final clamp. -/
def confSum (E : Engine) (altium_symbol altium_footprint : PyVal)
    (kicad_symbol kicad_footprint : String) (r : Record) : Except PyErr Rat :=
  let c : Rat := 0.5
  let c := if directHitCond E.symbol_mappings altium_symbol kicad_symbol then
    c + 0.3 else c
  let c := if directHitCond E.footprint_mappings altium_footprint kicad_footprint then
    c + 0.3 else c
  match patternCond E.symbol_mappings altium_symbol kicad_symbol with
  | .error e => .error e
  | .ok b1 =>
    let c := if b1 then c + 0.2 else c
    match patternCond E.footprint_mappings altium_footprint kicad_footprint with
    | .error e => .error e
    | .ok b2 =>
      let c := if b2 then c + 0.2 else c
      if genericSymbols.contains kicad_symbol then
        match pyLower (pyGet r "Description" "") with
        | .error e => .error e
        | .ok description => .ok (genericAdjust kicad_symbol description c)
      else .ok c

/-- The final line of `_calculate_confidence`. -/
def clamp01 (q : Rat) : Rat := max 0 (min 1 q)

/-- `_calculate_confidence`: the running sum, clamped to the unit interval. -/
def calculate_confidence (E : Engine) (altium_symbol altium_footprint : PyVal)
    (kicad_symbol kicad_footprint : String) (r : Record) : Except PyErr Rat :=
  (confSum E altium_symbol altium_footprint kicad_symbol kicad_footprint r).map clamp01

/-! ### Per-record orchestration (`map_component`) -/

/-- The `ComponentMapping` dataclass (keywords default to the empty list,
as `__post_init__` replaces `None`). -/
structure ComponentMapping where
  altium_symbol : PyVal
  altium_footprint : PyVal
  kicad_symbol : String
  kicad_footprint : String
  confidence : Rat
  field_mappings : List (String × String)
  category : String := "Uncategorized"
  subcategory : String := "General"
  keywords : List String := []
  deriving Repr, DecidableEq

/-- `cfg.get(key, default)` on a table-configuration dict. -/
def cfgGet (cfg : List (String × String)) (k default : String) : String :=
  (cfg.lookup k).getD default

/-- The minimal mapping built by `map_component`'s `except` clause: generic
symbol and footprint, confidence `0.0`, best-effort fields, default
category data. -/
def failed_component_mapping (r : Record) : ComponentMapping :=
  { altium_symbol := pyGet r "Symbol" ""
    altium_footprint := pyGet r "Footprint" ""
    kicad_symbol := "Device:U"
    kicad_footprint := "Package_SO:SOIC-8_3.9x4.9mm_P1.27mm"
    confidence := 0
    field_mappings := map_fields r }

/-- The `try`-body of `map_component`: extract the raw references via the
table configuration, resolve symbol and footprint (threading the memoizing
engine state), map fields and category, and score. -/
def map_component_try (E : Engine) (r : Record) (cfg : List (String × String)) :
    Except PyErr ComponentMapping × Engine :=
  match map_symbol E (pyGet r (cfgGet cfg "symbol_field" "Symbol") "") r with
  | (.error e, E1) => (.error e, E1)
  | (.ok kicad_symbol, E1) =>
    match map_footprint E1 (pyGet r (cfgGet cfg "footprint_field" "Footprint") "") r with
    | (.error e, E2) => (.error e, E2)
    | (.ok kicad_footprint, E2) =>
      match calculate_confidence E2 (pyGet r (cfgGet cfg "symbol_field" "Symbol") "")
          (pyGet r (cfgGet cfg "footprint_field" "Footprint") "")
          kicad_symbol kicad_footprint r with
      | .error e => (.error e, E2)
      | .ok confidence =>
        (.ok { altium_symbol := pyGet r (cfgGet cfg "symbol_field" "Symbol") ""
               altium_footprint := pyGet r (cfgGet cfg "footprint_field" "Footprint") ""
               kicad_symbol := kicad_symbol
               kicad_footprint := kicad_footprint
               confidence := confidence
               field_mappings := map_fields r
               category := (map_component_category E2 r).1
               subcategory := (map_component_category E2 r).2.1
               keywords := (map_component_category E2 r).2.2 }, E2)

/-- `map_component`: total by construction — the `except` clause converts
any internal error into `failed_component_mapping`.  Engine-state mutations
made before the error point persist, as in Python. -/
def map_component (E : Engine) (r : Record) (cfg : List (String × String)) :
    ComponentMapping × Engine :=
  match map_component_try E r cfg with
  | (.ok m, E') => (m, E')
  | (.error _, E') => (failed_component_mapping r, E')

/-! ### Table and database orchestration -/

/-- The `table_data` argument of `map_table_data`: the `config` entry (an
absent key defaults to the empty dict) and the `data` entry, where `none`
models a Python `None` in the `data` slot (any non-list there makes
`len(...)` raise before the loop). -/
structure TableData where
  config : List (String × String)
  data : Option (List Record)
  deriving Repr, DecidableEq

/-- The record loop of `map_table_data`: one `map_component` result per
record, in order, threading the engine.  `map_component` is total, so the
loop's per-record `except` clause is unreachable. -/
def mapTableLoop (E : Engine) (cfg : List (String × String)) :
    List Record → List ComponentMapping × Engine
  | [] => ([], E)
  | r :: rest =>
    let p := map_component E r cfg
    let q := mapTableLoop p.2 cfg rest
    (p.1 :: q.1, q.2)

/-- `map_table_data`: logs `len(table_data.get('data', []))` — which raises
`TypeError` when `data` holds `None` — then maps every record in order. -/
def map_table_data (E : Engine) (t : TableData) :
    Except PyErr (List ComponentMapping × Engine) :=
  match t.data with
  | none => .error .typeError
  | some records => .ok (mapTableLoop E t.config records)

/-- `map_database_data`: every table name of the input dict gets an entry,
in input order; a table whose processing raises is mapped to the empty
list by the per-table `except` clause. -/
def map_database_data (E : Engine) :
    List (String × TableData) → List (String × List ComponentMapping) × Engine
  | [] => ([], E)
  | (name, t) :: rest =>
    match map_table_data E t with
    | .ok (ms, E') =>
      let q := map_database_data E' rest
      ((name, ms) :: q.1, q.2)
    | .error _ =>
      let q := map_database_data E rest
      ((name, []) :: q.1, q.2)

/-! ### Category materialization (`kicad_generator.py`)

`populate_categories` inserts the default category list (merged with any
custom categories) into a freshly created `categories` table whose
`AUTOINCREMENT` ids start at 1, and returns the name-to-id dict; names are
unique, so every insert succeeds. -/

/-- The hard-coded `default_categories` list, in source order. -/
def default_categories : List (String × String) :=
  [("Resistors", "Resistive components"),
   ("Capacitors", "Capacitive components"),
   ("Inductors", "Inductive components"),
   ("Diodes", "Diode components"),
   ("Transistors", "Transistor components"),
   ("Integrated Circuits", "IC components"),
   ("Connectors", "Connector components"),
   ("Mechanical", "Mechanical components"),
   ("Crystals & Oscillators", "Timing components"),
   ("Sensors", "Sensor components"),
   ("Power Management", "Power management ICs"),
   ("Microcontrollers", "Microcontroller units"),
   ("Memory", "Memory components"),
   ("Analog", "Analog components"),
   ("Digital", "Digital components"),
   ("RF", "RF components"),
   ("Optoelectronics", "Optical components"),
   ("Test Points", "Test and measurement"),
   ("Uncategorized", "Uncategorized components")]

/-- The custom-category merge of `populate_categories`: defaults first (a
custom entry with a default's name overwrites only its description), new
names appended in order, mirroring Python dict construction. -/
def mergeCustomCategories (customs : List (String × String)) :
    List (String × String) :=
  customs.foldl (fun acc nd => dictInsert acc nd.1 nd.2) default_categories

/-- `populate_categories` with an optional `custom_categories` config list:
returns the category-name-to-id dict; ids are `lastrowid` values of the
fresh `AUTOINCREMENT` table, i.e. 1, 2, 3, … in list order. -/
def populate_categories (customs : Option (List (String × String))) :
    List (String × Nat) :=
  let categories :=
    match customs with
    | none => default_categories
    | some cs => mergeCustomCategories cs
  categories.enum.map (fun p => (p.2.1, p.1 + 1))

/-- `category_ids.get(name, unc)` — the per-branch lookup of
`_categorize_component`, with `unc` the id of the `Uncategorized`
sentinel. -/
def categoryGetD (category_ids : List (String × Nat)) (name : String) (unc : Nat) : Nat :=
  (category_ids.lookup name).getD unc

/-- `_categorize_component`: a fixed keyword scan over the mapping's
`Description` field text and lowered canonical symbol; the mapping's
rule-classified `category` attribute is never consulted.  `keyError` models
the `category_ids['Uncategorized']` lookup of a missing sentinel. -/
def categorize_component (m : ComponentMapping) (category_ids : List (String × Nat)) :
    Except PyErr Nat :=
  match category_ids.lookup "Uncategorized" with
  | none => .error .keyError
  | some unc =>
    let description := ((m.field_mappings.lookup "Description").getD "").toLower
    let symbol := m.kicad_symbol.toLower
    if (["resistor", "resistance"].any (fun t => substr t description)) ||
        substr ":r" symbol then .ok (categoryGetD category_ids "Resistors" unc)
    else if (["capacitor", "capacitance"].any (fun t => substr t description)) ||
        substr ":c" symbol then .ok (categoryGetD category_ids "Capacitors" unc)
    else if (["inductor", "inductance"].any (fun t => substr t description)) ||
        substr ":l" symbol then .ok (categoryGetD category_ids "Inductors" unc)
    else if (["diode"].any (fun t => substr t description)) ||
        substr ":d" symbol then .ok (categoryGetD category_ids "Diodes" unc)
    else if (["transistor", "mosfet", "fet"].any (fun t => substr t description)) ||
        substr ":q" symbol then .ok (categoryGetD category_ids "Transistors" unc)
    else if ["microcontroller", "mcu", "processor"].any (fun t => substr t description) then
      .ok (categoryGetD category_ids "Microcontrollers" unc)
    else if ["connector", "jack", "plug", "socket"].any (fun t => substr t description) then
      .ok (categoryGetD category_ids "Connectors" unc)
    else if ["crystal", "oscillator", "resonator"].any (fun t => substr t description) then
      .ok (categoryGetD category_ids "Crystals & Oscillators" unc)
    else .ok (categoryGetD category_ids "Uncategorized" unc)

/-- Modelled from the spec (§4.7 materialize): the category id is the exact
category-name match of the mapping's rule-classified `category` against the
`populate_categories` map when that name exists, else the `Uncategorized`
id.  Used only to compare the specified behaviour with
`categorize_component`. -/
def specCategorizeComponent (m : ComponentMapping) (category_ids : List (String × Nat)) :
    Except PyErr Nat :=
  match category_ids.lookup "Uncategorized" with
  | none => .error .keyError
  | some unc =>
    match category_ids.lookup m.category with
    | some i => .ok i
    | none => .ok unc

/-! ### Concrete scenario data -/

/-- A record whose description marks it as a resistor. -/
def recRes : Record :=
  [("Symbol", some "RES1"), ("Footprint", some "FPX"), ("Description", some "resistor")]

/-- A record whose description hits only the similar-symbol keyword list
(`"chip"` contains none of the component-type pattern literals). -/
def recChip : Record :=
  [("Symbol", some "RES1"), ("Footprint", some "FPX"), ("Description", some "chip")]

/-- A record whose description hits no keyword list at all. -/
def recWidget : Record :=
  [("Symbol", some "RES1"), ("Footprint", some "FPX"), ("Description", some "widget")]

/-- A record with a `None` description value: `.lower()` on it raises. -/
def recNoneDesc : Record := [("Symbol", some "X"), ("Description", none)]

/-- An engine whose store has an exact symbol rule for `RES1`. -/
def engineExact : Engine :=
  { defaultEngine with symbol_mappings := [("RES1", "Device:R")] }

/-- An engine whose store has only a glob symbol rule matching `RES1`. -/
def enginePat : Engine :=
  { defaultEngine with symbol_mappings := [("RES*", "Device:R")] }

/-! ### Shared lemmas -/

theorem clamp01_mem (q : Rat) : 0 ≤ clamp01 q ∧ clamp01 q ≤ 1 := by
  unfold clamp01
  constructor
  · exact le_max_left 0 (min 1 q)
  · exact max_le (by norm_num) (min_le_left 1 q)

theorem calculate_confidence_ok_bounds (E : Engine) (s f : PyVal) (ks kf : String)
    (r : Record) (c : Rat) (h : calculate_confidence E s f ks kf r = .ok c) :
    0 ≤ c ∧ c ≤ 1 := by
  unfold calculate_confidence at h
  cases hs : confSum E s f ks kf r with
  | error e => rw [hs] at h; simp [Except.map] at h
  | ok q =>
    rw [hs] at h
    simp only [Except.map] at h
    obtain rfl : clamp01 q = c := by simpa using h
    exact clamp01_mem q

theorem map_component_try_ok_conf (E : Engine) (r : Record)
    (cfg : List (String × String)) (m : ComponentMapping) (E' : Engine)
    (h : map_component_try E r cfg = (.ok m, E')) :
    0 ≤ m.confidence ∧ m.confidence ≤ 1 := by
  unfold map_component_try at h
  split at h
  · simp at h
  · split at h
    · simp at h
    · split at h
      · simp at h
      · rename_i E1 ks E2 kf hconf
        obtain ⟨hm, -⟩ : _ ∧ _ := by
          simpa [Prod.mk.injEq] using h
        have hb := calculate_confidence_ok_bounds _ _ _ _ _ _ _ hconf
        rw [← hm]
        exact hb

theorem map_component_of_try_ok (E : Engine) (r : Record)
    (cfg : List (String × String)) (m : ComponentMapping) (E' : Engine)
    (h : map_component_try E r cfg = (.ok m, E')) :
    map_component E r cfg = (m, E') := by
  unfold map_component
  rw [h]

theorem map_component_of_try_err (E : Engine) (r : Record)
    (cfg : List (String × String)) (e : PyErr) (E' : Engine)
    (h : map_component_try E r cfg = (.error e, E')) :
    map_component E r cfg = (failed_component_mapping r, E') := by
  unfold map_component
  rw [h]

/-! ### Claim theorems -/

/-- Claim C1: `map_component` is total by construction (its result type is a
plain `ComponentMapping × Engine`, with no error channel), and whenever its
`try`-body raises internally, the `except` clause returns the full-fallback
mapping: confidence `0.0`, the generic `Device:U` symbol, the generic
`SOIC-8` footprint, and the best-effort `map_fields` field mapping. -/
theorem map_component_total_fallback_on_internal_error
    (E : Engine) (r : Record) (cfg : List (String × String)) (e : PyErr) (E' : Engine)
    (h : map_component_try E r cfg = (.error e, E')) :
    map_component E r cfg = (failed_component_mapping r, E') ∧
    (failed_component_mapping r).confidence = 0 ∧
    (failed_component_mapping r).kicad_symbol = "Device:U" ∧
    (failed_component_mapping r).kicad_footprint = "Package_SO:SOIC-8_3.9x4.9mm_P1.27mm" ∧
    (failed_component_mapping r).field_mappings = map_fields r :=
  ⟨map_component_of_try_err E r cfg e E' h, rfl, rfl, rfl, rfl⟩

/-- A record with a `None` description makes the symbol resolver raise, so
`map_component` really does take the fallback path there. -/
theorem map_component_total_fallback_on_internal_error_witness :
    map_component_try defaultEngine recNoneDesc [] =
      (.error .symbolMappingError, defaultEngine) ∧
    (map_component defaultEngine recNoneDesc [] =
        (failed_component_mapping recNoneDesc, defaultEngine) ∧
      (failed_component_mapping recNoneDesc).confidence = 0 ∧
      (failed_component_mapping recNoneDesc).kicad_symbol = "Device:U" ∧
      (failed_component_mapping recNoneDesc).kicad_footprint =
        "Package_SO:SOIC-8_3.9x4.9mm_P1.27mm" ∧
      (failed_component_mapping recNoneDesc).field_mappings = map_fields recNoneDesc) :=
  ⟨by decide,
   map_component_total_fallback_on_internal_error defaultEngine recNoneDesc []
     .symbolMappingError defaultEngine (by decide)⟩

/-- Claim C2: every `ComponentMapping` produced by `map_component` — on the
normal path (where the score is clamped) and on the internal-failure
fallback path (where it is the constant `0.0`) — has its confidence in the
closed unit interval. -/
theorem map_component_confidence_in_unit_interval
    (E : Engine) (r : Record) (cfg : List (String × String)) :
    0 ≤ (map_component E r cfg).1.confidence ∧
      (map_component E r cfg).1.confidence ≤ 1 := by
  rcases h : map_component_try E r cfg with ⟨exc, E'⟩
  cases exc with
  | error e =>
    rw [map_component_of_try_err E r cfg e E' h]
    unfold failed_component_mapping
    norm_num
  | ok m =>
    rw [map_component_of_try_ok E r cfg m E' h]
    exact map_component_try_ok_conf E r cfg m E' h

theorem mapTableLoop_length (cfg : List (String × String)) :
    ∀ (rs : List Record) (E : Engine), (mapTableLoop E cfg rs).1.length = rs.length := by
  intro rs
  induction rs with
  | nil => intro E; rfl
  | cons r rest ih =>
    intro E
    simp only [mapTableLoop, List.length_cons]
    rw [ih]

theorem mapTableLoop_nth (cfg : List (String × String)) :
    ∀ (rs : List Record) (E : Engine) (i : Nat) (r' : Record), rs[i]? = some r' →
      (mapTableLoop E cfg rs).1[i]? =
        some ((map_component (mapTableLoop E cfg (rs.take i)).2 r' cfg).1) := by
  intro rs
  induction rs with
  | nil => intro E i r' h; simp at h
  | cons r rest ih =>
    intro E i r' h
    cases i with
    | zero =>
      obtain rfl : r = r' := by simpa using h
      simp [mapTableLoop]
    | succ n =>
      have h' : rest[n]? = some r' := by simpa using h
      have := ih (map_component E r cfg).2 n r' h'
      simpa [mapTableLoop] using this

/-- Claim C3: mapping a table whose `data` entry holds N records yields
exactly N mappings, and the i-th output is the `map_component` result of
the i-th input record (against the engine state accumulated over the
preceding records), so input order is preserved. -/
theorem map_table_data_length_and_order
    (E : Engine) (t : TableData) (rs : List Record)
    (ms : List ComponentMapping) (E' : Engine)
    (hdata : t.data = some rs) (hok : map_table_data E t = .ok (ms, E')) :
    ms.length = rs.length ∧
    ∀ i r', rs[i]? = some r' →
      ms[i]? = some ((map_component (mapTableLoop E t.config (rs.take i)).2 r' t.config).1) := by
  unfold map_table_data at hok
  rw [hdata] at hok
  obtain ⟨rfl, -⟩ : (mapTableLoop E t.config rs).1 = ms ∧ (mapTableLoop E t.config rs).2 = E' := by
    have := Except.ok.inj hok
    exact ⟨congrArg Prod.fst this, congrArg Prod.snd this⟩
  exact ⟨mapTableLoop_length t.config rs E, fun i r' h => mapTableLoop_nth t.config rs E i r' h⟩

/-- Applying C3's theorem to a concrete two-record table. -/
theorem map_table_data_length_and_order_witness :
    ((mapTableLoop defaultEngine [] [recRes, recWidget]).1).length =
      ([recRes, recWidget] : List Record).length ∧
    ((mapTableLoop defaultEngine [] [recRes, recWidget]).1)[0]? =
      some ((map_component
        (mapTableLoop defaultEngine [] (([recRes, recWidget] : List Record).take 0)).2
        recRes []).1) ∧
    ((mapTableLoop defaultEngine [] [recRes, recWidget]).1)[1]? =
      some ((map_component
        (mapTableLoop defaultEngine [] (([recRes, recWidget] : List Record).take 1)).2
        recWidget []).1) := by
  have h := map_table_data_length_and_order defaultEngine
    ⟨[], some [recRes, recWidget]⟩ [recRes, recWidget]
    (mapTableLoop defaultEngine [] [recRes, recWidget]).1
    (mapTableLoop defaultEngine [] [recRes, recWidget]).2
    rfl rfl
  exact ⟨h.1, h.2 0 recRes rfl, h.2 1 recWidget rfl⟩

/-- Five concrete records for the cancellation scenario. -/
def tableFiveRecords : List Record :=
  [recWidget, recWidget, recRes, recChip, recWidget]

/-- Claim C4 counterexample: the repository's table-mapping operation,
`map_table_data`, takes no cancellation token at all — its inputs are just
the engine state and the table data — so a cancellation requested after 2
of 5 records cannot influence it: it returns all 5 mappings, not 2. -/
theorem map_table_data_no_cancellation_counterexample :
    ((mapTableLoop defaultEngine [] tableFiveRecords).1).length = 5 ∧ (5 : Nat) ≠ 2 := by
  constructor
  · rw [mapTableLoop_length]
    rfl
  · decide

/-- Claim C4 (amended): `map_table_data` has no cancellation-token
parameter and always processes the whole record list: for a table with N
records it returns exactly N mappings.  (The only cancellation polling in
the repository sits in the GUI migration loop, which checks its progress
dialog's `cancelled` flag after mapping each component and keeps the
partial list; that loop drives `map_component` directly, not this
function.) -/
theorem map_table_data_always_full_length
    (E : Engine) (t : TableData) (rs : List Record) (h : t.data = some rs) :
    ∃ ms E', map_table_data E t = .ok (ms, E') ∧ ms.length = rs.length := by
  refine ⟨(mapTableLoop E t.config rs).1, (mapTableLoop E t.config rs).2, ?_, ?_⟩
  · unfold map_table_data
    rw [h]
  · exact mapTableLoop_length t.config rs E

/-- Applying C4's amended theorem to the five-record table. -/
theorem map_table_data_always_full_length_witness :
    ∃ ms E', map_table_data defaultEngine ⟨[], some tableFiveRecords⟩ = .ok (ms, E') ∧
      ms.length = tableFiveRecords.length :=
  map_table_data_always_full_length defaultEngine ⟨[], some tableFiveRecords⟩
    tableFiveRecords rfl

/-- Claim C5 counterexample: with the same record `recRes`, the same raw
symbol `RES1` and the same canonical output `Device:R`, resolution through
an exact rule (`engineExact`) scores 0.9, while resolution through a glob
pattern rule (`enginePat`) scores 1.0 — the pattern path memoizes its
result into the exact table before scoring, so it additionally earns the
exact bonus.  Exact-match confidence is therefore *below* pattern-match
confidence, refuting the claimed `exact ≥ pattern` ordering. -/
theorem confidence_exact_vs_pattern_counterexample :
    (map_component engineExact recRes []).1.kicad_symbol = "Device:R" ∧
    (map_component enginePat recRes []).1.kicad_symbol = "Device:R" ∧
    (map_component engineExact recRes []).1.confidence = 9 / 10 ∧
    (map_component enginePat recRes []).1.confidence = 1 ∧
    (map_component engineExact recRes []).1.confidence <
      (map_component enginePat recRes []).1.confidence := by
  with_unfolding_all decide

/-- Claim C5 (amended): the provenance ordering that actually holds is
pattern ≥ exact ≥ fuzzy ≥ fallback.  The four conjuncts compare, on
otherwise identical inputs (same raw symbol and footprint), the four
provenances: pattern rule (`enginePat`/`recRes`, score 1.0), exact rule
(`engineExact`/`recRes`, 0.9), similar-symbol step (`recChip`, whose
description reaches the fuzzy step and yields `Device:U`, 0.4), and
fallback (`recWidget`, which misses every keyword list, 0.4); the trailing
conjuncts pin down those provenances. -/
theorem confidence_provenance_ordering_amended :
    (map_component enginePat recRes []).1.confidence ≥
      (map_component engineExact recRes []).1.confidence ∧
    (map_component engineExact recRes []).1.confidence ≥
      (map_component defaultEngine recChip []).1.confidence ∧
    (map_component defaultEngine recChip []).1.confidence ≥
      (map_component defaultEngine recWidget []).1.confidence ∧
    engineExact.symbol_mappings.lookup "RES1" = some "Device:R" ∧
    enginePat.symbol_mappings.lookup "RES1" = none ∧
    findPatternMatch enginePat.symbol_mappings "RES1" = some "Device:R" ∧
    find_similar_symbol "RES1" recChip = .ok (some "Device:U") ∧
    find_similar_symbol "RES1" recWidget = .ok none := by
  with_unfolding_all decide

/-- Claim C6 counterexample: after `map_component` resolves `RES1` through
the glob rule `RES*`, the memoized cache entry makes the exact-bonus
condition and the pattern-bonus condition of `_calculate_confidence` both
true for the very same mapping, and the resulting score is
`0.5 + 0.3 + 0.2 + 0.1` clamped to 1 — so the two symbol bonuses are not
mutually exclusive. -/
theorem symbol_bonuses_both_apply_counterexample :
    enginePat.symbol_mappings.lookup "RES1" = none ∧
    (map_component enginePat recRes []).1.kicad_symbol = "Device:R" ∧
    directHitCond (map_component enginePat recRes []).2.symbol_mappings
      (some "RES1") "Device:R" = true ∧
    patternCond (map_component enginePat recRes []).2.symbol_mappings
      (some "RES1") "Device:R" = .ok true ∧
    (map_component enginePat recRes []).1.confidence = 1 := by
  with_unfolding_all decide

theorem lookup_dictInsert_self (m : List (String × String)) (k v : String) :
    (dictInsert m k v).lookup k = some v := by
  induction m with
  | nil => simp [dictInsert, List.lookup]
  | cons a rest ih =>
    obtain ⟨k', v'⟩ := a
    by_cases h : k' = k
    · subst h
      simp [dictInsert, List.lookup]
    · have hb : (k' == k) = false := beq_eq_false_iff_ne.mpr h
      have hb' : (k == k') = false := beq_eq_false_iff_ne.mpr (Ne.symm h)
      simp [dictInsert, List.lookup, hb, hb', ih]

theorem patternCond_after_insert (s k : String) :
    ∀ (m : List (String × String)), m.lookup s = none →
      findPatternMatch m s = some k →
      patternCond (dictInsert m s k) (some s) k = .ok true := by
  intro m
  induction m with
  | nil => intro _ hpat; simp [findPatternMatch] at hpat
  | cons a rest ih =>
    intro hdir hpat
    obtain ⟨p, v⟩ := a
    have hsp : (s == p) = false := by
      cases hsp : s == p with
      | false => rfl
      | true =>
        exfalso
        simp [List.lookup, hsp] at hdir
    have hdir' : rest.lookup s = none := by
      simpa [List.lookup, hsp] using hdir
    have hps : (p == s) = false := by
      have : s ≠ p := by simpa using hsp
      exact beq_eq_false_iff_ne.mpr (Ne.symm this)
    have hins : dictInsert ((p, v) :: rest) s k = (p, v) :: dictInsert rest s k := by
      simp [dictInsert, hps]
    rw [hins]
    by_cases hc : (p.contains '*' && fnmatch s p) = true
    · have hpv : v = k := by
        have : some v = some k := by
          simpa [findPatternMatch, hc] using hpat
        simpa using this
      obtain ⟨hc1, hc2⟩ := Bool.and_eq_true_iff.mp hc
      subst hpv
      simp [patternCond, hc1, fnmatchPy, hc2]
    · have hpat' : findPatternMatch rest s = some k := by
        simpa [findPatternMatch, hc] using hpat
      have htail := ih hdir' hpat'
      cases hc1 : p.contains '*' with
      | false => simpa [patternCond, hc1] using htail
      | true =>
        have hf : fnmatch s p = false := by
          cases hf : fnmatch s p with
          | false => rfl
          | true => exact absurd (by simp [hc1, hf]) hc
        simpa [patternCond, hc1, fnmatchPy, hf] using htail

/-- Claim C6 (amended): whenever `map_symbol` resolves a raw symbol through
a glob pattern rule, it memoizes the result under the raw symbol, so at
scoring time the exact-bonus condition and the pattern-bonus condition of
`_calculate_confidence` are *both* true (contributing `+0.3` and `+0.2`
together); the two bonuses are mutually exclusive only when the raw symbol
was not cached with the produced canonical symbol. -/
theorem pattern_resolution_memoizes_both_bonuses
    (E : Engine) (s k : String) (r : Record) (hs : s ≠ "")
    (hdir : E.symbol_mappings.lookup s = none)
    (hpat : findPatternMatch E.symbol_mappings s = some k) :
    map_symbol E (some s) r =
      (.ok k, { E with symbol_mappings := dictInsert E.symbol_mappings s k }) ∧
    directHitCond (dictInsert E.symbol_mappings s k) (some s) k = true ∧
    patternCond (dictInsert E.symbol_mappings s k) (some s) k = .ok true := by
  have ht : truthy (some s) = true := by
    have : (s == "") = false := beq_eq_false_iff_ne.mpr hs
    simp [truthy, this]
  have htry : map_symbol_try E (some s) r =
      (.ok k, { E with symbol_mappings := dictInsert E.symbol_mappings s k }) := by
    unfold map_symbol_try
    rw [ht]
    simp only [Bool.not_true, Bool.false_eq_true, if_false, pyStr]
    rw [hdir, hpat]
  refine ⟨?_, ?_, patternCond_after_insert s k E.symbol_mappings hdir hpat⟩
  · unfold map_symbol
    rw [htry]
  · simp [directHitCond, lookup_dictInsert_self]

/-- Applying C6's amended theorem to the concrete pattern-rule engine. -/
theorem pattern_resolution_memoizes_both_bonuses_witness :
    map_symbol enginePat (some "RES1") recRes =
      (.ok "Device:R",
        { enginePat with
            symbol_mappings := dictInsert enginePat.symbol_mappings "RES1" "Device:R" }) ∧
    directHitCond (dictInsert enginePat.symbol_mappings "RES1" "Device:R")
      (some "RES1") "Device:R" = true ∧
    patternCond (dictInsert enginePat.symbol_mappings "RES1" "Device:R")
      (some "RES1") "Device:R" = .ok true :=
  pattern_resolution_memoizes_both_bonuses enginePat "RES1" "Device:R" recRes
    (by decide) (by decide) (by with_unfolding_all decide)

/-- Claim C7 counterexample: the claimed fuzzy step is a function of the
raw symbol and the catalogued canonical names only (a similarity ratio with
a 0.6 cutoff), so its result could not change when only the record changes.
`_find_similar_symbol` does change: with the same raw symbol `ABC` it
returns `Device:R` for a resistor description and `Device:C` for a
capacitor description — it keyword-scans the record and computes no
similarity ratio at all. -/
theorem fuzzy_step_similarity_counterexample :
    find_similar_symbol "ABC" [("Description", some "resistor")] = .ok (some "Device:R") ∧
    find_similar_symbol "ABC" [("Description", some "capacitor")] = .ok (some "Device:C") ∧
    find_similar_symbol "ABC" [("Description", some "resistor")] ≠
      find_similar_symbol "ABC" [("Description", some "capacitor")] := by
  with_unfolding_all decide

theorem get_fallback_symbol_ok (r : Record) (d v : String)
    (hd : pyLower (pyGet r "Description" "") = .ok d)
    (hv : pyLower (pyGet r "Value" "") = .ok v) :
    ∃ fb, get_fallback_symbol r = .ok fb := by
  unfold get_fallback_symbol
  rw [hd, hv]
  dsimp only
  repeat' split
  all_goals exact ⟨_, rfl⟩

/-- Claim C7 (amended): the "fuzzy" step ignores the raw symbol entirely —
it keyword-scans the record's description and returns a fixed generic
symbol, or no result — and when it produces no result (with the earlier
exact, pattern and component-type steps also empty), `map_symbol` falls
through to `_get_fallback_symbol`. -/
theorem fuzzy_step_keyword_scan_amended :
    (∀ (s1 s2 : String) (r : Record),
      find_similar_symbol s1 r = find_similar_symbol s2 r) ∧
    (∀ (E : Engine) (s : String) (r : Record) (d v : String), s ≠ "" →
      E.symbol_mappings.lookup s = none →
      findPatternMatch E.symbol_mappings s = none →
      pyLower (pyGet r "Description" "") = .ok d →
      pyLower (pyGet r "Value" "") = .ok v →
      findTypeSymbol d v = none →
      find_similar_symbol s r = .ok none →
      map_symbol E (some s) r = (get_fallback_symbol r, E)) := by
  constructor
  · intro s1 s2 r
    rfl
  · intro E s r d v hs hdir hpat hd hv htype hsim
    have ht : truthy (some s) = true := by
      have : (s == "") = false := beq_eq_false_iff_ne.mpr hs
      simp [truthy, this]
    obtain ⟨fb, hfb⟩ := get_fallback_symbol_ok r d v hd hv
    have htry : map_symbol_try E (some s) r = (get_fallback_symbol r, E) := by
      unfold map_symbol_try
      rw [ht]
      simp only [Bool.not_true, Bool.false_eq_true, if_false, pyStr]
      rw [hdir, hpat, hd, hv]
      dsimp only
      rw [htype, hsim]
    unfold map_symbol
    rw [htry, hfb]

/-- Applying C7's amended theorem: a raw-symbol change leaves the fuzzy
step's output untouched, and on a record hitting no keyword list at all the
resolver lands on the fallback symbol. -/
theorem fuzzy_step_keyword_scan_amended_witness :
    find_similar_symbol "A" recWidget = find_similar_symbol "B" recWidget ∧
    map_symbol defaultEngine (some "XYZ") recWidget =
      (get_fallback_symbol recWidget, defaultEngine) :=
  ⟨fuzzy_step_keyword_scan_amended.1 "A" "B" recWidget,
   fuzzy_step_keyword_scan_amended.2 defaultEngine "XYZ" recWidget "widget" ""
     (by decide) rfl rfl (by with_unfolding_all decide)
     (by with_unfolding_all decide) (by with_unfolding_all decide)
     (by with_unfolding_all decide)⟩

/-- Claim C8 counterexample: symbol resolution *can* fail.  On a record
whose `Description` attribute holds Python `None`, the strategy chain calls
`.lower()` on `None`, the raised `AttributeError` is re-raised by
`map_symbol`'s `except` clause as `SymbolMappingError`, and the caller sees
an exception rather than a canonical symbol. -/
theorem map_symbol_raises_counterexample :
    map_symbol defaultEngine (some "XYZ") recNoneDesc =
      (.error .symbolMappingError, defaultEngine) := by
  decide

theorem pyGet_some (r : Record) (h : ∀ p ∈ r, p.2 ≠ none) (key d : String) :
    ∃ s, pyGet r key d = some s := by
  induction r with
  | nil => exact ⟨d, rfl⟩
  | cons a rest ih =>
    obtain ⟨k', v'⟩ := a
    by_cases hk : (key == k') = true
    · cases v' with
      | none => exact absurd rfl (h (k', none) (List.mem_cons_self _ _))
      | some s => exact ⟨s, by simp [pyGet, List.lookup, hk]⟩
    · have hb : (key == k') = false := by
        cases hkb : key == k' with
        | false => rfl
        | true => exact absurd hkb hk
      obtain ⟨s, hsv⟩ := ih (fun p hp => h p (List.mem_cons_of_mem _ hp))
      exact ⟨s, by simpa [pyGet, List.lookup, hb] using hsv⟩

theorem find_similar_symbol_ok (s : String) (r : Record) (d : String)
    (hd : pyLower (pyGet r "Description" "") = .ok d) :
    ∃ o, find_similar_symbol s r = .ok o := by
  unfold find_similar_symbol
  rw [hd]
  dsimp only
  repeat' split
  all_goals exact ⟨_, rfl⟩

/-- Claim C8 (amended): on records whose present attribute values are all
strings (no `None` values), `map_symbol` never fails: it returns a
canonical symbol for every raw symbol, including the empty string and a raw
`None`.  A `None` attribute value, however, makes it raise
`SymbolMappingError` (caught only upstream, in `map_component`). -/
theorem map_symbol_total_on_string_records
    (E : Engine) (sym : PyVal) (r : Record) (h : ∀ p ∈ r, p.2 ≠ none) :
    ∃ k, (map_symbol E sym r).1 = .ok k := by
  obtain ⟨ds, hds⟩ := pyGet_some r h "Description" ""
  obtain ⟨vs, hvs⟩ := pyGet_some r h "Value" ""
  have hd : pyLower (pyGet r "Description" "") = .ok ds.toLower := by
    rw [hds]; rfl
  have hv : pyLower (pyGet r "Value" "") = .ok vs.toLower := by
    rw [hvs]; rfl
  obtain ⟨fb, hfb⟩ := get_fallback_symbol_ok r _ _ hd hv
  suffices htry : ∃ k E', map_symbol_try E sym r = (.ok k, E') by
    obtain ⟨k, E', htry⟩ := htry
    unfold map_symbol
    rw [htry]
    exact ⟨k, rfl⟩
  unfold map_symbol_try
  cases ht : truthy sym with
  | false =>
    simp only [ht, Bool.not_false, if_true]
    exact ⟨fb, E, by rw [hfb]⟩
  | true =>
    simp only [ht, Bool.not_true, Bool.false_eq_true, if_false]
    cases hl : E.symbol_mappings.lookup (pyStr sym) with
    | some k => exact ⟨k, E, rfl⟩
    | none =>
      cases hp : findPatternMatch E.symbol_mappings (pyStr sym) with
      | some k => exact ⟨k, _, rfl⟩
      | none =>
        rw [hd, hv]
        dsimp only
        cases hts : findTypeSymbol ds.toLower vs.toLower with
        | some k => exact ⟨k, _, rfl⟩
        | none =>
          obtain ⟨o, ho⟩ := find_similar_symbol_ok (pyStr sym) r ds.toLower hd
          rw [ho]
          cases o with
          | some k => exact ⟨k, E, rfl⟩
          | none => exact ⟨fb, E, by rw [hfb]⟩

/-- Applying C8's amended theorem to an all-string record. -/
theorem map_symbol_total_on_string_records_witness :
    ∃ k, (map_symbol defaultEngine (some "Q77") recWidget).1 = .ok k :=
  map_symbol_total_on_string_records defaultEngine (some "Q77") recWidget (by decide)

/-- A mapping whose rule-classified category is `Connectors` but whose
description text mentions a resistor. -/
def mResistorText : ComponentMapping :=
  { altium_symbol := some "S"
    altium_footprint := some "F"
    kicad_symbol := "Custom:X"
    kicad_footprint := "F"
    confidence := 0
    field_mappings := [("Description", "resistor device")]
    category := "Connectors"
    subcategory := "General"
    keywords := [] }

/-- A mapping hitting no keyword branch of `_categorize_component`. -/
def mGadget : ComponentMapping :=
  { altium_symbol := none
    altium_footprint := none
    kicad_symbol := "X"
    kicad_footprint := "F"
    confidence := 0
    field_mappings := [("Description", "gadget")] }

/-- Claim C9 counterexample: `_categorize_component` does not match the
mapping's rule-classified category name against the populated map — it
keyword-scans the `Description` field and the canonical symbol.  For a
mapping classified `Connectors` (id 7 in the populated set) whose
description mentions a resistor, the code assigns the `Resistors` id 1,
while the claimed exact-name lookup would assign 7. -/
theorem categorize_component_ignores_category_counterexample :
    categorize_component mResistorText (populate_categories none) = .ok 1 ∧
    specCategorizeComponent mResistorText (populate_categories none) = .ok 7 ∧
    (1 : Nat) ≠ 7 := by
  with_unfolding_all decide

theorem lookup_mem_snd (l : List (String × Nat)) (k : String) (i : Nat)
    (h : l.lookup k = some i) : i ∈ l.map Prod.snd := by
  induction l with
  | nil => simp [List.lookup] at h
  | cons a rest ih =>
    obtain ⟨k', v'⟩ := a
    by_cases hk : (k == k') = true
    · obtain rfl : v' = i := by simpa [List.lookup, hk] using h
      simp
    · have hb : (k == k') = false := by
        cases hkb : k == k' with
        | false => rfl
        | true => exact absurd hkb hk
      have := ih (by simpa [List.lookup, hb] using h)
      simp [this]

theorem lookup_of_mem_keys (l : List (String × Nat)) (k : String)
    (h : k ∈ l.map Prod.fst) : ∃ n, l.lookup k = some n := by
  induction l with
  | nil => simp at h
  | cons a rest ih =>
    obtain ⟨k', v'⟩ := a
    by_cases hk : k = k'
    · subst hk
      exact ⟨v', by simp [List.lookup]⟩
    · have hmem : k ∈ rest.map Prod.fst := by
        rcases (by simpa using h : k = k' ∨ k ∈ rest.map Prod.fst) with h' | h'
        · exact absurd h' hk
        · exact h'
      obtain ⟨n, hn⟩ := ih hmem
      have hb : (k == k') = false := beq_eq_false_iff_ne.mpr hk
      exact ⟨n, by simpa [List.lookup, hb] using hn⟩

theorem enumFrom_assign_fst (l : List (String × String)) :
    ∀ n, ((List.enumFrom n l).map (fun p => (p.2.1, p.1 + 1))).map Prod.fst =
      l.map Prod.fst := by
  induction l with
  | nil => intro n; rfl
  | cons a rest ih =>
    intro n
    simp only [List.enumFrom, List.map_cons]
    rw [ih]

theorem populate_categories_keys (customs : Option (List (String × String))) :
    (populate_categories customs).map Prod.fst =
      (match customs with
       | none => default_categories
       | some cs => mergeCustomCategories cs).map Prod.fst := by
  unfold populate_categories
  cases customs with
  | none => exact enumFrom_assign_fst default_categories 0
  | some cs => exact enumFrom_assign_fst (mergeCustomCategories cs) 0

theorem dictInsert_keys (m : List (String × String)) (k v key : String)
    (h : key ∈ m.map Prod.fst) : key ∈ (dictInsert m k v).map Prod.fst := by
  induction m with
  | nil => simp at h
  | cons a rest ih =>
    obtain ⟨k', v'⟩ := a
    by_cases hk : (k' == k) = true
    · simpa [dictInsert, hk] using h
    · have hb : (k' == k) = false := by
        cases hkb : k' == k with
        | false => rfl
        | true => exact absurd hkb hk
      rcases (by simpa using h : key = k' ∨ key ∈ rest.map Prod.fst) with h' | h'
      · simp [dictInsert, hb, h']
      · simp [dictInsert, hb, ih h']

theorem foldl_dictInsert_keys (customs : List (String × String)) :
    ∀ (acc : List (String × String)) (key : String), key ∈ acc.map Prod.fst →
      key ∈ (customs.foldl (fun a nd => dictInsert a nd.1 nd.2) acc).map Prod.fst := by
  induction customs with
  | nil => intro acc key h; simpa using h
  | cons c rest ih =>
    intro acc key h
    exact ih (dictInsert acc c.1 c.2) key (dictInsert_keys acc c.1 c.2 key h)

theorem uncategorized_lookup (customs : Option (List (String × String))) :
    ∃ u, (populate_categories customs).lookup "Uncategorized" = some u := by
  apply lookup_of_mem_keys
  rw [populate_categories_keys]
  cases customs with
  | none => decide
  | some cs =>
    exact foldl_dictInsert_keys cs default_categories "Uncategorized" (by decide)

/-- Claim C9 (amended): the id assigned by `_categorize_component` comes
from a fixed keyword scan over the mapping's `Description` field and
canonical symbol — the rule-classified `category` attribute plays no part —
but it is always a valid id of the populated category set (the
`Uncategorized` id when no keyword branch matches or the branch's name is
absent). -/
theorem categorize_component_valid_id
    (m : ComponentMapping) (customs : Option (List (String × String))) (i : Nat)
    (h : categorize_component m (populate_categories customs) = .ok i) :
    i ∈ (populate_categories customs).map Prod.snd := by
  obtain ⟨u, hu⟩ := uncategorized_lookup customs
  have hmem : ∀ name,
      categoryGetD (populate_categories customs) name u ∈
        (populate_categories customs).map Prod.snd := by
    intro name
    unfold categoryGetD
    cases hn : (populate_categories customs).lookup name with
    | some j => simpa using lookup_mem_snd _ _ _ hn
    | none => simpa using lookup_mem_snd _ _ _ hu
  unfold categorize_component at h
  rw [hu] at h
  dsimp only at h
  repeat' split at h
  all_goals
    first
      | (obtain rfl := Except.ok.inj h; exact hmem _)

/-- Applying C9's amended theorem: a mapping with no matching keywords gets
the `Uncategorized` id 19, a member of the populated id set. -/
theorem categorize_component_valid_id_witness :
    categorize_component mGadget (populate_categories none) = .ok 19 ∧
    19 ∈ (populate_categories none).map Prod.snd :=
  ⟨by with_unfolding_all decide,
   categorize_component_valid_id mGadget none 19 (by with_unfolding_all decide)⟩

/-- Claim C10: `map_database_data` emits one entry per input table, under
the same name and in input order, and a table whose processing raises (here:
a `None` in its `data` slot, which makes `len(...)` raise before the loop)
is mapped to the empty list rather than dropped. -/
theorem map_database_data_keys_and_error_tables :
    ∀ (db : List (String × TableData)) (E : Engine),
      (map_database_data E db).1.map Prod.fst = db.map Prod.fst ∧
      (∀ (i : Nat) (name : String) (t : TableData), db[i]? = some (name, t) →
        t.data = none → (map_database_data E db).1[i]? = some (name, [])) := by
  intro db
  induction db with
  | nil =>
    intro E
    constructor
    · rfl
    · intro i name t hi
      simp at hi
  | cons a rest ih =>
    obtain ⟨name, t⟩ := a
    intro E
    cases hmt : map_table_data E t with
    | ok p =>
      obtain ⟨ms, E'⟩ := p
      constructor
      · simp [map_database_data, hmt, (ih E').1]
      · intro i n' t' hi hnone
        cases i with
        | zero =>
          obtain ⟨rfl, rfl⟩ : name = n' ∧ t = t' := by simpa using hi
          exfalso
          unfold map_table_data at hmt
          rw [hnone] at hmt
          exact Except.noConfusion hmt
        | succ j =>
          have hi' : rest[j]? = some (n', t') := by simpa using hi
          have := (ih E').2 j n' t' hi' hnone
          simpa [map_database_data, hmt] using this
    | error e =>
      constructor
      · simp [map_database_data, hmt, (ih E).1]
      · intro i n' t' hi hnone
        cases i with
        | zero =>
          obtain ⟨rfl, rfl⟩ : name = n' ∧ t = t' := by simpa using hi
          simp [map_database_data, hmt]
        | succ j =>
          have hi' : rest[j]? = some (n', t') := by simpa using hi
          have := (ih E).2 j n' t' hi' hnone
          simpa [map_database_data, hmt] using this

/-- A two-table database: a well-formed table and one whose `data` slot
holds `None`. -/
def dbSample : List (String × TableData) :=
  [("good", { config := [], data := some [recWidget] }),
   ("bad", { config := [], data := none })]

/-- Applying C10's theorem to `dbSample`. -/
theorem map_database_data_keys_and_error_tables_witness :
    (map_database_data defaultEngine dbSample).1.map Prod.fst = dbSample.map Prod.fst ∧
    (map_database_data defaultEngine dbSample).1[1]? = some ("bad", []) :=
  ⟨(map_database_data_keys_and_error_tables dbSample defaultEngine).1,
   (map_database_data_keys_and_error_tables dbSample defaultEngine).2 1 "bad"
     { config := [], data := none } rfl rfl⟩
